import Mathlib

/-!
Shallow embedding of the stock-analyzer backend (`main.py`) and verification of
its specification claims.

Modelling conventions:
* A pandas `DataFrame` of daily bars is a `Frame` of equal-length column lists;
  prices and volumes are rationals (`ℚ`).
* A float `NaN` produced by pandas (missing rolling values, `Series.diff()` at
  the first row) is modelled as `none : Option ℚ`; Python comparisons against
  `NaN` are `False`, modelled by `nanGt`/`nanLt` returning `false` on `none`.
* Division by zero (zero cumulative volume, zero average loss) follows the
  rational convention `x / 0 = 0` on both the code side and the spec side; the
  spec flags these degenerate cases as undefined and no claim depends on them.
-/

namespace StockAnalyzer

/-- The fetched OHLCV data frame: one list per column, row `i` is bar `i`
(chronological order, as returned by `stock.history`). Dates are kept as their
already-formatted `"YYYY-MM-DD"` strings. -/
structure Frame where
  dates : List String
  opens : List ℚ
  highs : List ℚ
  lows : List ℚ
  closes : List ℚ
  volumes : List ℚ

/-- Number of rows, `len(df)`. -/
def Frame.length (f : Frame) : ℕ := f.closes.length

/-- Well-formedness of a fetched frame: all columns aligned (pandas guarantees
this for a real `DataFrame`). -/
def Frame.WF (f : Frame) : Prop :=
  f.dates.length = f.closes.length ∧ f.opens.length = f.closes.length ∧
  f.highs.length = f.closes.length ∧ f.lows.length = f.closes.length ∧
  f.volumes.length = f.closes.length

/-- `df.empty`: the frame has no rows. -/
def Frame.isEmpty (f : Frame) : Bool := f.closes.isEmpty

/-- The window pandas `Series.rolling(window=w)` sees at row `i`: the last
`min w (i+1)` elements ending at index `i`. -/
def windowAt (xs : List ℚ) (w i : ℕ) : List ℚ :=
  (xs.take (i + 1)).drop (i + 1 - w)

/-- `Series.rolling(window=w, min_periods=1).mean()` on a series with no
missing values: at each row, the mean of the available points in the window
(at least one). -/
def rollingMeanMin1 (xs : List ℚ) (w : ℕ) : List ℚ :=
  (List.range xs.length).map fun i =>
    (windowAt xs w i).sum / ((windowAt xs w i).length : ℚ)

/-- `Series.rolling(window=w).mean()` with the default `min_periods = w`:
`none` (NaN) until the window holds `w` points. -/
def rollingMean (xs : List ℚ) (w : ℕ) : List (Option ℚ) :=
  (List.range xs.length).map fun i =>
    if i + 1 < w then none else some ((windowAt xs w i).sum / (w : ℚ))

/-- `Series.diff()`: `none` (NaN) at the first row, else the day-over-day
change. -/
def seriesDiff (xs : List ℚ) : List (Option ℚ) :=
  (List.range xs.length).map fun i =>
    if i = 0 then none else some (xs.getD i 0 - xs.getD (i - 1) 0)

/-- `delta.where(delta > 0, 0)`: keep positive deltas, else `0`. A `NaN` delta
compares `False` against `0`, so the first row becomes `0`. -/
def gains (delta : List (Option ℚ)) : List ℚ :=
  delta.map fun d =>
    match d with
    | none => 0
    | some v => if 0 < v then v else 0

/-- `-delta.where(delta < 0, 0)`: negated negative deltas, else `0`; the `NaN`
first row becomes `0`. -/
def losses (delta : List (Option ℚ)) : List ℚ :=
  delta.map fun d =>
    match d with
    | none => 0
    | some v => if v < 0 then -v else 0

/-- Elementwise division of two aligned series with missing values: `NaN`
propagates (`NaN / x = NaN`, `x / NaN = NaN`). -/
def optZipDiv (a b : List (Option ℚ)) : List (Option ℚ) :=
  List.zipWith
    (fun x y =>
      match x, y with
      | some x, some y => some (x / y)
      | _, _ => none) a b

/-- `calculate_rsi` from `main.py`: delta, gains/losses, 14-period rolling
means, `rs = avg_gains / avg_losses`, `rsi = 100 - 100 / (1 + rs)`. -/
def calculate_rsi (data : List ℚ) (periods : ℕ := 14) : List (Option ℚ) :=
  let delta := seriesDiff data
  let g := gains delta
  let l := losses delta
  let avg_gains := rollingMean g periods
  let avg_losses := rollingMean l periods
  let rs := optZipDiv avg_gains avg_losses
  rs.map (Option.map fun r => 100 - 100 / (1 + r))

/-- Running cumulative sum with accumulator, pandas `Series.cumsum()`. -/
def cumsumAux (acc : ℚ) : List ℚ → List ℚ
  | [] => []
  | x :: xs => (acc + x) :: cumsumAux (acc + x) xs

/-- pandas `Series.cumsum()`. -/
def cumsum (xs : List ℚ) : List ℚ := cumsumAux 0 xs

/-- `typical_price = (df['High'] + df['Low'] + df['Close']) / 3`. -/
def typicalPrice (f : Frame) : List ℚ :=
  List.zipWith (fun p c => (p.1 + p.2 + c) / 3) (f.highs.zip f.lows) f.closes

/-- `calculate_vwap` from `main.py`:
`(typical_price * volume).cumsum() / volume.cumsum()`. -/
def calculate_vwap (f : Frame) : List ℚ :=
  let typical_price := typicalPrice f
  let volume := f.volumes
  List.zipWith (· / ·) (cumsum (List.zipWith (· * ·) typical_price volume))
    (cumsum volume)

/-- The frame after `calculate_indicators` has run: the original columns plus
the four appended indicator columns. -/
structure IndFrame extends Frame where
  fifty_MA : List ℚ
  twohundred_MA : List ℚ
  RSI : List (Option ℚ)
  VWAP : List ℚ

/-- `calculate_indicators` from `main.py`: appends `50_MA`, `200_MA`, `RSI`
and `VWAP` columns, leaving the original columns untouched. -/
def calculate_indicators (df : Frame) : IndFrame :=
  { toFrame := df
    fifty_MA := rollingMeanMin1 df.closes 50
    twohundred_MA := rollingMeanMin1 df.closes 200
    RSI := calculate_rsi df.closes 14
    VWAP := calculate_vwap df }

/-- The `stock.info` dictionary, restricted to the keys `prepare_response`
reads; `none` models an absent key. -/
structure StockInfo where
  symbol : Option String := none
  longName : Option String := none
  sector : Option String := none
  industry : Option String := none

/-- The `metadata` block of the response. -/
structure Metadata where
  ticker : String
  company_name : String
  sector : String
  industry : String
  data_points : ℕ
  start_date : String
  end_date : String

/-- The `timeseries` block of the response: parallel arrays. -/
structure Timeseries where
  dates : List String
  price : List ℚ
  volume : List ℚ
  fifty_ma : List ℚ
  twohundred_ma : List ℚ
  rsi : List (Option ℚ)
  vwap : List ℚ

/-- The `analysis.moving_averages` block. -/
structure MovingAveragesAnalysis where
  latest_price : ℚ
  latest_50ma : ℚ
  latest_200ma : ℚ
  is_golden_cross : Bool
  price_above_50ma : Bool
  price_above_200ma : Bool

/-- The `analysis.rsi` block; `current_rsi = none` models a `NaN` latest RSI. -/
structure RsiAnalysis where
  current_rsi : Option ℚ
  is_overbought : Bool
  is_oversold : Bool

/-- The `analysis.vwap` block. -/
structure VwapAnalysis where
  current_vwap : ℚ
  price_above_vwap : Bool

/-- The `analysis` block. -/
structure Analysis where
  moving_averages : MovingAveragesAnalysis
  rsi : RsiAnalysis
  vwap : VwapAnalysis

/-- The full JSON response of `prepare_response`. -/
structure Response where
  metadata : Metadata
  timeseries : Timeseries
  analysis : Analysis

/-- Python `a > b` where `a` may be `NaN` (modelled `none`): `NaN > b` is
`False`. -/
def nanGt (a : Option ℚ) (b : ℚ) : Bool :=
  match a with
  | none => false
  | some x => decide (b < x)

/-- Python `a < b` where `a` may be `NaN`: `NaN < b` is `False`. -/
def nanLt (a : Option ℚ) (b : ℚ) : Bool :=
  match a with
  | none => false
  | some x => decide (x < b)

/-- The record literal returned by `prepare_response`, parameterised by the
latest values read off the frame via `iloc[-1]` / `index[0]`. -/
def mkResponse (df : IndFrame) (stock_info : StockInfo)
    (latest_price latest_50ma latest_200ma : ℚ) (latest_rsi : Option ℚ)
    (latest_vwap : ℚ) (start_date end_date : String) : Response :=
  { metadata :=
      { ticker := stock_info.symbol.getD ""
        company_name := stock_info.longName.getD ""
        sector := stock_info.sector.getD "N/A"
        industry := stock_info.industry.getD "N/A"
        data_points := df.closes.length
        start_date := start_date
        end_date := end_date }
    timeseries :=
      { dates := df.dates
        price := df.closes
        volume := df.volumes
        fifty_ma := df.fifty_MA
        twohundred_ma := df.twohundred_MA
        rsi := df.RSI
        vwap := df.VWAP }
    analysis :=
      { moving_averages :=
          { latest_price := latest_price
            latest_50ma := latest_50ma
            latest_200ma := latest_200ma
            is_golden_cross := decide (latest_200ma < latest_50ma)
            price_above_50ma := decide (latest_50ma < latest_price)
            price_above_200ma := decide (latest_200ma < latest_price) }
        rsi :=
          { current_rsi := latest_rsi
            is_overbought := nanGt latest_rsi 70
            is_oversold := nanLt latest_rsi 30 }
        vwap :=
          { current_vwap := latest_vwap
            price_above_vwap := decide (latest_vwap < latest_price) } } }

/-- `prepare_response` from `main.py`: reads the latest value of each column
(`iloc[-1]`, plus `index[0]` for the start date) and assembles the response.
Each such read raises on an empty frame; a raise is modelled by `none`, which
the endpoint converts to a 500 error. -/
def prepare_response (df : IndFrame) (stock_info : StockInfo) :
    Option Response := do
  let latest_price ← df.closes.getLast?
  let latest_50ma ← df.fifty_MA.getLast?
  let latest_200ma ← df.twohundred_MA.getLast?
  let latest_rsi ← df.RSI.getLast?
  let latest_vwap ← df.VWAP.getLast?
  let start_date ← df.dates.head?
  let end_date ← df.dates.getLast?
  pure (mkResponse df stock_info latest_price latest_50ma latest_200ma
    latest_rsi latest_vwap start_date end_date)

/-- An HTTP error raised by the endpoint. -/
structure HTTPException where
  status_code : ℕ
  detail : String
  deriving DecidableEq

/-- The `GET /api/stock/{ticker}` handler `get_stock_data` from `main.py`.
The external fetcher is a parameter: `history` is the frame returned by
`stock.history`, and `info` is `stock.info` (`none` models the info fetch
raising, in which case the handler falls back to `{"symbol": ticker}`).
An empty frame returns 404 before any indicator computation; any raise in
the computation or response assembly becomes a 500. -/
def get_stock_data (history : Frame) (info : Option StockInfo)
    (ticker : String) : Except HTTPException Response :=
  if history.isEmpty then
    .error ⟨404, "No data found for ticker " ++ ticker⟩
  else
    let stock_info := info.getD { symbol := some ticker }
    let df := calculate_indicators history
    match prepare_response df stock_info with
    | some r => .ok r
    | none => .error ⟨500, "Error processing request"⟩

/-! ### Basic length and indexing lemmas for the embedded pandas operations -/

@[simp] lemma length_rollingMeanMin1 (xs : List ℚ) (w : ℕ) :
    (rollingMeanMin1 xs w).length = xs.length := by
  simp [rollingMeanMin1]

@[simp] lemma length_rollingMean (xs : List ℚ) (w : ℕ) :
    (rollingMean xs w).length = xs.length := by
  simp [rollingMean]

@[simp] lemma length_seriesDiff (xs : List ℚ) :
    (seriesDiff xs).length = xs.length := by
  simp [seriesDiff]

@[simp] lemma length_gains (d : List (Option ℚ)) :
    (gains d).length = d.length := by
  simp [gains]

@[simp] lemma length_losses (d : List (Option ℚ)) :
    (losses d).length = d.length := by
  simp [losses]

@[simp] lemma length_cumsumAux (acc : ℚ) (xs : List ℚ) :
    (cumsumAux acc xs).length = xs.length := by
  induction xs generalizing acc with
  | nil => rfl
  | cons x xs ih => simp [cumsumAux, ih]

@[simp] lemma length_cumsum (xs : List ℚ) : (cumsum xs).length = xs.length := by
  simp [cumsum]

@[simp] lemma length_optZipDiv (a b : List (Option ℚ)) :
    (optZipDiv a b).length = min a.length b.length := by
  simp [optZipDiv]

@[simp] lemma length_calculate_rsi (data : List ℚ) (p : ℕ) :
    (calculate_rsi data p).length = data.length := by
  simp [calculate_rsi]

lemma length_typicalPrice (f : Frame) (h : f.WF) :
    (typicalPrice f).length = f.length := by
  obtain ⟨-, -, h3, h4, h5⟩ := h
  simp [typicalPrice, Frame.length, h3, h4]

lemma length_calculate_vwap (f : Frame) (h : f.WF) :
    (calculate_vwap f).length = f.length := by
  have htp := length_typicalPrice f h
  obtain ⟨-, -, -, -, h5⟩ := h
  simp [calculate_vwap, htp, h5, Frame.length] at htp ⊢

lemma rollingMeanMin1_getElem? (xs : List ℚ) (w i : ℕ) (hi : i < xs.length) :
    (rollingMeanMin1 xs w)[i]? =
      some ((windowAt xs w i).sum / ((windowAt xs w i).length : ℚ)) := by
  simp [rollingMeanMin1, List.getElem?_range hi]

lemma rollingMean_getElem? (xs : List ℚ) (w i : ℕ) (hi : i < xs.length) :
    (rollingMean xs w)[i]? =
      some (if i + 1 < w then none
            else some ((windowAt xs w i).sum / (w : ℚ))) := by
  simp [rollingMean, List.getElem?_range hi]

lemma cumsumAux_getElem? (xs : List ℚ) (acc : ℚ) (i : ℕ) (hi : i < xs.length) :
    (cumsumAux acc xs)[i]? = some (acc + (xs.take (i + 1)).sum) := by
  induction xs generalizing acc i with
  | nil => simp at hi
  | cons x xs ih =>
    cases i with
    | zero => simp [cumsumAux]
    | succ n =>
      simp only [cumsumAux, List.getElem?_cons_succ]
      rw [ih (acc + x) n (by simpa using hi)]
      simp [List.take_succ_cons, add_assoc]

lemma cumsum_getElem? (xs : List ℚ) (i : ℕ) (hi : i < xs.length) :
    (cumsum xs)[i]? = some ((xs.take (i + 1)).sum) := by
  simpa [cumsum] using cumsumAux_getElem? xs 0 i hi

lemma sum_take_eq_sum_range (xs : List ℚ) (n : ℕ) :
    (xs.take n).sum = ∑ j ∈ Finset.range n, xs.getD j 0 := by
  induction n with
  | zero => simp
  | succ n ih =>
    rw [List.take_succ, List.sum_append, ih, Finset.sum_range_succ]
    cases h : xs[n]? <;> simp [List.getD_eq_getElem?_getD, h]

lemma windowAt_eq_take (xs : List ℚ) (w i : ℕ) (h : i + 1 ≤ w) :
    windowAt xs w i = xs.take (i + 1) := by
  simp [windowAt, Nat.sub_eq_zero_of_le h]

lemma length_windowAt (xs : List ℚ) (w i : ℕ) (hi : i < xs.length) :
    (windowAt xs w i).length = (i + 1) - (i + 1 - w) := by
  simp only [windowAt, List.length_drop, List.length_take]
  omega

lemma sum_windowAt (xs : List ℚ) (w i : ℕ) :
    (windowAt xs w i).sum = ∑ j ∈ Finset.Icc (i + 1 - w) i, xs.getD j 0 := by
  have h2 : ((xs.take (i + 1)).take (i + 1 - w)).sum + (windowAt xs w i).sum
      = (xs.take (i + 1)).sum := by
    rw [windowAt, ← List.sum_append, List.take_append_drop]
  have h3 : (xs.take (i + 1)).take (i + 1 - w) = xs.take (i + 1 - w) := by
    rw [List.take_take, Nat.min_eq_left (by omega)]
  have h4 : (windowAt xs w i).sum
      = (xs.take (i + 1)).sum - (xs.take (i + 1 - w)).sum := by
    rw [← h3]; linarith
  rw [h4, sum_take_eq_sum_range, sum_take_eq_sum_range,
    ← Finset.sum_Ico_eq_sub _ (by omega), ← Nat.Ico_succ_right]

/-! ### Spec-side formulas

These definitions follow the wording of the specification (§4 and §8), to be
compared with the embedded code. -/

/-- Spec §4.1: the simple moving average with window `w` at position `i`.
For `i < w - 1` the mean of `closes[0..i]` (all available points, minimum 1);
for `i ≥ w - 1` the mean of the `w` closes `closes[i-w+1..i]` (the lower
bound `i - w + 1` is written `i + 1 - w`, which is the same value and is
truncation-safe on `ℕ`). -/
def specMovingAverage (closes : List ℚ) (w i : ℕ) : ℚ :=
  if i < w - 1 then (∑ j ∈ Finset.range (i + 1), closes.getD j 0) / ((i + 1 : ℕ) : ℚ)
  else (∑ j ∈ Finset.Icc (i + 1 - w) i, closes.getD j 0) / (w : ℚ)

lemma rollingMeanMin1_conforms (xs : List ℚ) (w i : ℕ) (hw : 1 ≤ w)
    (hi : i < xs.length) :
    (rollingMeanMin1 xs w)[i]? = some (specMovingAverage xs w i) := by
  rw [rollingMeanMin1_getElem? xs w i hi, specMovingAverage]
  by_cases hcase : i < w - 1
  · have hle : i + 1 ≤ w := by omega
    rw [if_pos hcase, windowAt_eq_take xs w i hle, sum_take_eq_sum_range,
      List.length_take, Nat.min_eq_left (by omega)]
  · have hwi : (i + 1) - (i + 1 - w) = w := by omega
    rw [if_neg hcase, sum_windowAt, length_windowAt xs w i hi, hwi]

/-- Spec §4.3: typical price per bar, `(high + low + close) / 3`. -/
def specTypicalPrice (f : Frame) (j : ℕ) : ℚ :=
  (f.highs.getD j 0 + f.lows.getD j 0 + f.closes.getD j 0) / 3

/-- Spec §4.3: cumulative VWAP at position `i`: cumulative sum of
`typical_price × volume` over bars `0..i` divided by the cumulative sum of
volume over bars `0..i`. -/
def specVWAP (f : Frame) (i : ℕ) : ℚ :=
  (∑ j ∈ Finset.range (i + 1), specTypicalPrice f j * f.volumes.getD j 0) /
    (∑ j ∈ Finset.range (i + 1), f.volumes.getD j 0)

lemma typicalPrice_getElem? (f : Frame) (hwf : f.WF) (j : ℕ)
    (hj : j < f.length) :
    (typicalPrice f)[j]? = some (specTypicalPrice f j) := by
  obtain ⟨-, -, h3, h4, -⟩ := hwf
  have hj' : j < f.closes.length := hj
  have hh : f.highs[j]? = some (f.highs.getD j 0) := by
    simp [List.getElem?_eq_getElem (show j < f.highs.length by omega)]
  have hl : f.lows[j]? = some (f.lows.getD j 0) := by
    simp [List.getElem?_eq_getElem (show j < f.lows.length by omega)]
  have hc : f.closes[j]? = some (f.closes.getD j 0) := by
    simp [List.getElem?_eq_getElem (show j < f.closes.length by omega)]
  rw [typicalPrice, List.getElem?_zipWith, List.zip_eq_zipWith,
    List.getElem?_zipWith, hh, hl, hc]
  simp [specTypicalPrice]

lemma vwap_value (f : Frame) (hwf : f.WF) (i : ℕ) (hi : i < f.length) :
    (calculate_vwap f)[i]? = some (specVWAP f i) := by
  have ltp : (typicalPrice f).length = f.length := length_typicalPrice f hwf
  have hvl : f.volumes.length = f.length := hwf.2.2.2.2
  have ltpv : (List.zipWith (· * ·) (typicalPrice f) f.volumes).length
      = f.length := by simp [ltp, hvl]
  have htpv : ∀ j, j < f.length →
      (List.zipWith (· * ·) (typicalPrice f) f.volumes).getD j 0
        = specTypicalPrice f j * f.volumes.getD j 0 := by
    intro j hj
    have h1 := typicalPrice_getElem? f hwf j hj
    have h2 : f.volumes[j]? = some (f.volumes.getD j 0) := by
      simp [List.getElem?_eq_getElem (show j < f.volumes.length by omega)]
    have h3 : (List.zipWith (· * ·) (typicalPrice f) f.volumes)[j]?
        = some (specTypicalPrice f j * f.volumes.getD j 0) := by
      rw [List.getElem?_zipWith, h1, h2]
    simp [h3]
  rw [calculate_vwap]
  rw [List.getElem?_zipWith, cumsum_getElem? _ i (by omega),
    cumsum_getElem? _ i (by omega), sum_take_eq_sum_range,
    sum_take_eq_sum_range, specVWAP]
  have hsum : ∑ j ∈ Finset.range (i + 1),
      (List.zipWith (· * ·) (typicalPrice f) f.volumes).getD j 0
      = ∑ j ∈ Finset.range (i + 1),
        specTypicalPrice f j * f.volumes.getD j 0 := by
    refine Finset.sum_congr rfl fun j hj => ?_
    exact htpv j (by have := Finset.mem_range.mp hj; omega)
  rw [hsum]

/-- Spec §4.2 step 1: the day-over-day price change at position `j`; the
first position has no prior and contributes no usable delta (it contributes
zero to the rolling sums, exactly as the code's `where(..., 0)` turns the
`NaN` first difference into `0`). -/
def specDelta (closes : List ℚ) (j : ℕ) : ℚ :=
  if j = 0 then 0 else closes.getD j 0 - closes.getD (j - 1) 0

/-- Spec §4.2 step 2: the positive part of the delta. -/
def specGain (closes : List ℚ) (j : ℕ) : ℚ := max (specDelta closes j) 0

/-- Spec §4.2 step 2: the negated negative part of the delta. -/
def specLoss (closes : List ℚ) (j : ℕ) : ℚ := max (-specDelta closes j) 0

/-- Spec §4.2 step 3: the 14-period mean of gains ending at position `i`. -/
def specAvgGain (closes : List ℚ) (i : ℕ) : ℚ :=
  (∑ j ∈ Finset.Icc (i + 1 - 14) i, specGain closes j) / 14

/-- Spec §4.2 step 3: the 14-period mean of losses ending at position `i`. -/
def specAvgLoss (closes : List ℚ) (i : ℕ) : ℚ :=
  (∑ j ∈ Finset.Icc (i + 1 - 14) i, specLoss closes j) / 14

/-- Spec §4.2 step 4: `RS = avg_gain / avg_loss`. -/
def specRS (closes : List ℚ) (i : ℕ) : ℚ :=
  specAvgGain closes i / specAvgLoss closes i

/-- Spec §4.2 step 5: `RSI = 100 − 100/(1+RS)`. -/
def specRSI (closes : List ℚ) (i : ℕ) : ℚ :=
  100 - 100 / (1 + specRS closes i)

lemma gains_getD (closes : List ℚ) (j : ℕ) (hj : j < closes.length) :
    (gains (seriesDiff closes)).getD j 0 = specGain closes j := by
  simp only [gains, seriesDiff, List.getD_eq_getElem?_getD, List.getElem?_map,
    List.getElem?_range hj, Option.map_some', Option.getD_some]
  by_cases h0 : j = 0
  · simp [h0, specGain, specDelta]
  · rw [if_neg h0]
    simp only [specGain, specDelta, if_neg h0, List.getD_eq_getElem?_getD]
    rcases lt_or_le 0 (closes[j]?.getD 0 - closes[j - 1]?.getD 0) with h | h
    · rw [if_pos h]
      exact (sup_eq_left.mpr h.le).symm
    · rw [if_neg (not_lt.mpr h)]
      exact (sup_eq_right.mpr h).symm

lemma losses_getD (closes : List ℚ) (j : ℕ) (hj : j < closes.length) :
    (losses (seriesDiff closes)).getD j 0 = specLoss closes j := by
  simp only [losses, seriesDiff, List.getD_eq_getElem?_getD, List.getElem?_map,
    List.getElem?_range hj, Option.map_some', Option.getD_some]
  by_cases h0 : j = 0
  · simp [h0, specLoss, specDelta]
  · rw [if_neg h0]
    simp only [specLoss, specDelta, if_neg h0, List.getD_eq_getElem?_getD]
    rcases lt_or_le (closes[j]?.getD 0 - closes[j - 1]?.getD 0) 0 with h | h
    · rw [if_pos h]
      exact (sup_eq_left.mpr (by linarith)).symm
    · rw [if_neg (not_lt.mpr h)]
      exact (sup_eq_right.mpr (by linarith)).symm

lemma calculate_rsi_getElem? (closes : List ℚ) (i : ℕ)
    (hi : i < closes.length) :
    (calculate_rsi closes 14)[i]? =
      some (if i < 13 then none else some (specRSI closes i)) := by
  have hag := rollingMean_getElem? (gains (seriesDiff closes)) 14 i (by simpa)
  have hal := rollingMean_getElem? (losses (seriesDiff closes)) 14 i (by simpa)
  simp only [calculate_rsi, List.getElem?_map, optZipDiv,
    List.getElem?_zipWith, hag, hal]
  by_cases hc : i + 1 < 14
  · simp [hc, show i < 13 by omega]
  · have hG : (windowAt (gains (seriesDiff closes)) 14 i).sum
        = ∑ j ∈ Finset.Icc (i + 1 - 14) i, specGain closes j := by
      rw [sum_windowAt]
      refine Finset.sum_congr rfl fun j hj => ?_
      have hj' : j ≤ i := (Finset.mem_Icc.mp hj).2
      exact gains_getD closes j (by omega)
    have hL : (windowAt (losses (seriesDiff closes)) 14 i).sum
        = ∑ j ∈ Finset.Icc (i + 1 - 14) i, specLoss closes j := by
      rw [sum_windowAt]
      refine Finset.sum_congr rfl fun j hj => ?_
      have hj' : j ≤ i := (Finset.mem_Icc.mp hj).2
      exact losses_getD closes j (by omega)
    simp [hc, show ¬ i < 13 by omega, hG, hL, specRSI, specRS, specAvgGain,
      specAvgLoss]

lemma exists_getLast?_of_ne_nil {α : Type} (l : List α) (h : l ≠ []) :
    ∃ x, l.getLast? = some x := by
  cases hx : l.getLast? with
  | none => exact absurd (List.getLast?_eq_none_iff.mp hx) h
  | some x => exact ⟨x, rfl⟩

lemma exists_head?_of_ne_nil {α : Type} (l : List α) (h : l ≠ []) :
    ∃ x, l.head? = some x := by
  cases hx : l.head? with
  | none => exact absurd (List.head?_eq_none_iff.mp hx) h
  | some x => exact ⟨x, rfl⟩

/-- Decomposition of a successful `prepare_response`: every `iloc[-1]`
succeeded and the result is the assembled record. -/
lemma prepare_response_eq_some {df : IndFrame} {info : StockInfo}
    {r : Response} (h : prepare_response df info = some r) :
    ∃ lp l50 l200 lrsi lvwap sd ed,
      df.closes.getLast? = some lp ∧
      df.fifty_MA.getLast? = some l50 ∧
      df.twohundred_MA.getLast? = some l200 ∧
      df.RSI.getLast? = some lrsi ∧
      df.VWAP.getLast? = some lvwap ∧
      df.dates.head? = some sd ∧
      df.dates.getLast? = some ed ∧
      r = mkResponse df info lp l50 l200 lrsi lvwap sd ed := by
  simp only [prepare_response, Option.pure_def, Option.bind_eq_bind,
    Option.bind_eq_some, Option.some.injEq] at h
  obtain ⟨lp, hlp, l50, h50, l200, h200, lrsi, hrsi, lvwap, hvwap, sd, hsd,
    ed, hed, hr⟩ := h
  exact ⟨lp, l50, l200, lrsi, lvwap, sd, ed, hlp, h50, h200, hrsi, hvwap,
    hsd, hed, hr.symm⟩

/-- On a well-formed non-empty frame, `prepare_response` always succeeds
after `calculate_indicators`. -/
lemma prepare_response_isSome (f : Frame) (info : StockInfo) (hwf : f.WF)
    (hne : f.closes ≠ []) :
    ∃ r, prepare_response (calculate_indicators f) info = some r := by
  have hpos : 0 < f.closes.length := List.length_pos.mpr hne
  have hvlen : (calculate_vwap f).length = f.closes.length :=
    length_calculate_vwap f hwf
  have hdlen : f.dates.length = f.closes.length := hwf.1
  obtain ⟨lp, hlp⟩ := exists_getLast?_of_ne_nil f.closes hne
  obtain ⟨l50, h50⟩ := exists_getLast?_of_ne_nil (rollingMeanMin1 f.closes 50)
    (List.length_pos.mp (by simpa using hpos))
  obtain ⟨l200, h200⟩ := exists_getLast?_of_ne_nil
    (rollingMeanMin1 f.closes 200) (List.length_pos.mp (by simpa using hpos))
  obtain ⟨lrsi, hrsi⟩ := exists_getLast?_of_ne_nil (calculate_rsi f.closes 14)
    (List.length_pos.mp (by simpa using hpos))
  obtain ⟨lvwap, hvwap⟩ := exists_getLast?_of_ne_nil (calculate_vwap f)
    (List.length_pos.mp (by rw [hvlen]; exact hpos))
  obtain ⟨sd, hsd⟩ := exists_head?_of_ne_nil f.dates
    (List.length_pos.mp (by rw [hdlen]; exact hpos))
  obtain ⟨ed, hed⟩ := exists_getLast?_of_ne_nil f.dates
    (List.length_pos.mp (by rw [hdlen]; exact hpos))
  refine ⟨mkResponse (calculate_indicators f) info lp l50 l200 lrsi lvwap
    sd ed, ?_⟩
  rw [prepare_response]
  show (f.closes.getLast?.bind _) = _
  rw [hlp]
  show ((rollingMeanMin1 f.closes 50).getLast?.bind _) = _
  rw [h50]
  show ((rollingMeanMin1 f.closes 200).getLast?.bind _) = _
  rw [h200]
  show ((calculate_rsi f.closes 14).getLast?.bind _) = _
  rw [hrsi]
  show ((calculate_vwap f).getLast?.bind _) = _
  rw [hvwap]
  show (f.dates.head?.bind _) = _
  rw [hsd]
  show (f.dates.getLast?.bind _) = _
  rw [hed]
  rfl

/-! ### Concrete frames used by the witnesses -/

/-- The three-bar end-to-end scenario of spec §8: closes `[10, 12, 11]`,
volumes `[100, 100, 100]`, highs and lows equal to the close. -/
def sampleFrame : Frame :=
  { dates := ["2024-01-01", "2024-01-02", "2024-01-03"]
    opens := [10, 12, 11]
    highs := [10, 12, 11]
    lows := [10, 12, 11]
    closes := [10, 12, 11]
    volumes := [100, 100, 100] }

/-- An empty fetch result (unknown ticker). -/
def emptyFrame : Frame :=
  { dates := [], opens := [], highs := [], lows := [], closes := [],
    volumes := [] }

/-- A `stock.info` record with none of the read keys present. -/
def sampleInfo : StockInfo := {}

/-! ### Claims -/

/-- Claim C1: for every non-empty close-price series and window `W ∈ {50,200}`,
the moving-average series produced by the indicator engine has, at each
position `i < W-1`, the arithmetic mean of `closes[0..i]` (all available
points, minimum 1), and at each position `i ≥ W-1`, the arithmetic mean of
`closes[i-W+1..i]`. -/
theorem moving_average_window_policy (f : Frame) (hne : f.closes ≠ [])
    (i : ℕ) (hi : i < f.closes.length) :
    (calculate_indicators f).fifty_MA[i]? =
        some (specMovingAverage f.closes 50 i) ∧
      (calculate_indicators f).twohundred_MA[i]? =
        some (specMovingAverage f.closes 200 i) :=
  ⟨rollingMeanMin1_conforms f.closes 50 i (by omega) hi,
   rollingMeanMin1_conforms f.closes 200 i (by omega) hi⟩

/-- Witness for C1 at the sample frame, position 2. -/
theorem moving_average_window_policy_witness :
    sampleFrame.closes ≠ [] ∧ 2 < sampleFrame.closes.length ∧
    ((calculate_indicators sampleFrame).fifty_MA[2]? =
        some (specMovingAverage sampleFrame.closes 50 2) ∧
      (calculate_indicators sampleFrame).twohundred_MA[2]? =
        some (specMovingAverage sampleFrame.closes 200 2)) :=
  ⟨by decide, by decide,
   moving_average_window_policy sampleFrame (by decide) 2 (by decide)⟩

/-- Claim C2: for every non-empty well-formed bar series with at least one
bar of nonzero volume, the VWAP value at every position `i` equals the
cumulative sum of `typical_price × volume` over bars `0..i` divided by the
cumulative sum of volume over bars `0..i`, with
`typical_price = (high + low + close) / 3`; in particular at the last
position it equals the ratio of the sums over the entire series. -/
theorem vwap_cumulative_ratio (f : Frame) (hwf : f.WF) (hne : f.closes ≠ [])
    (hvol : ∃ j, j < f.length ∧ f.volumes.getD j 0 ≠ 0)
    (i : ℕ) (hi : i < f.length) :
    (calculate_indicators f).VWAP[i]? = some (specVWAP f i) ∧
      (calculate_indicators f).VWAP.getLast? =
        some (specVWAP f (f.length - 1)) := by
  have hlen : (calculate_vwap f).length = f.length := length_calculate_vwap f hwf
  have hpos : 0 < f.length := by
    have := List.length_pos.mpr hne
    simpa [Frame.length] using this
  refine ⟨vwap_value f hwf i hi, ?_⟩
  show (calculate_vwap f).getLast? = _
  rw [List.getLast?_eq_getElem?, hlen]
  exact vwap_value f hwf (f.length - 1) (by omega)

/-- Witness for C2 at the sample frame, position 2: VWAP of the three bars. -/
theorem vwap_cumulative_ratio_witness :
    sampleFrame.WF ∧ sampleFrame.closes ≠ [] ∧
    (∃ j, j < sampleFrame.length ∧ sampleFrame.volumes.getD j 0 ≠ 0) ∧
    2 < sampleFrame.length ∧
    ((calculate_indicators sampleFrame).VWAP[2]? =
        some (specVWAP sampleFrame 2) ∧
      (calculate_indicators sampleFrame).VWAP.getLast? =
        some (specVWAP sampleFrame (sampleFrame.length - 1))) :=
  ⟨⟨rfl, rfl, rfl, rfl, rfl⟩, by decide, ⟨0, by decide, by norm_num [sampleFrame]⟩,
   by decide,
   vwap_cumulative_ratio sampleFrame ⟨rfl, rfl, rfl, rfl, rfl⟩ (by decide)
     ⟨0, by decide, by norm_num [sampleFrame]⟩ 2 (by decide)⟩

/-- A fifteen-bar frame with alternating up and down closes, long enough for
the 14-period RSI window to fill. -/
def frame15 : Frame :=
  { dates := ["2024-01-01", "2024-01-02", "2024-01-03", "2024-01-04",
      "2024-01-05", "2024-01-08", "2024-01-09", "2024-01-10", "2024-01-11",
      "2024-01-12", "2024-01-15", "2024-01-16", "2024-01-17", "2024-01-18",
      "2024-01-19"]
    opens := [10, 12, 11, 13, 12, 14, 13, 15, 14, 16, 15, 17, 16, 18, 17]
    highs := [10, 12, 11, 13, 12, 14, 13, 15, 14, 16, 15, 17, 16, 18, 17]
    lows := [10, 12, 11, 13, 12, 14, 13, 15, 14, 16, 15, 17, 16, 18, 17]
    closes := [10, 12, 11, 13, 12, 14, 13, 15, 14, 16, 15, 17, 16, 18, 17]
    volumes := [100, 100, 100, 100, 100, 100, 100, 100, 100, 100, 100, 100,
      100, 100, 100] }

/-- A fifteen-bar strictly decreasing close series: every delta is a loss, so
the 14-period average loss is strictly positive once the window fills. -/
def closesDown : List ℚ := [15, 14, 13, 12, 11, 10, 9, 8, 7, 6, 5, 4, 3, 2, 1]

/-- Claim C3: the RSI series is undefined (`none`, a pandas `NaN`) at every
position before the 14-period rolling window over the delta-derived gain and
loss series fills — positions `0..12`, since the first position has no prior
and contributes a zero sample rather than a usable delta — and at each
position `i ≥ 13` equals `100 − 100/(1+RS)` with
`RS = (14-period mean of positive deltas) / (14-period mean of negated
negative deltas)`. -/
theorem rsi_window_and_formula (f : Frame) (i : ℕ)
    (hi : i < f.closes.length) :
    (calculate_indicators f).RSI[i]? =
      some (if i < 13 then none else some (specRSI f.closes i)) :=
  calculate_rsi_getElem? f.closes i hi

/-- Witness for C3 at the fifteen-bar frame: position 5 (window not yet
full, undefined) and position 14 (full window, the RS formula). -/
theorem rsi_window_and_formula_witness :
    (5 < frame15.closes.length ∧
      (calculate_indicators frame15).RSI[5]? =
        some (if 5 < 13 then none else some (specRSI frame15.closes 5))) ∧
    (14 < frame15.closes.length ∧
      (calculate_indicators frame15).RSI[14]? =
        some (if 14 < 13 then none else some (specRSI frame15.closes 14))) :=
  ⟨⟨by decide, rsi_window_and_formula frame15 5 (by decide)⟩,
   ⟨by decide, rsi_window_and_formula frame15 14 (by decide)⟩⟩

/-- Claim C5: at every position where the 14-period average loss is strictly
positive and the 14-period average gain is non-negative, the computed RSI
value lies in `[0, 100]`. -/
theorem rsi_bounded (closes : List ℚ) (i : ℕ) (g l : ℚ)
    (hg : (rollingMean (gains (seriesDiff closes)) 14)[i]? = some (some g))
    (hl : (rollingMean (losses (seriesDiff closes)) 14)[i]? = some (some l))
    (hgpos : 0 ≤ g) (hlpos : 0 < l) :
    ∃ r, (calculate_rsi closes 14)[i]? = some (some r) ∧ 0 ≤ r ∧ r ≤ 100 := by
  refine ⟨100 - 100 / (1 + g / l), ?_, ?_, ?_⟩
  · simp only [calculate_rsi, List.getElem?_map, optZipDiv,
      List.getElem?_zipWith, hg, hl]
    rfl
  · have hrs : 0 ≤ g / l := div_nonneg hgpos hlpos.le
    have h1 : (0 : ℚ) < 1 + g / l := by linarith
    have h2 : 100 / (1 + g / l) ≤ 100 := by
      rw [div_le_iff₀ h1]
      nlinarith
    linarith
  · have hrs : 0 ≤ g / l := div_nonneg hgpos hlpos.le
    have h1 : (0 : ℚ) < 1 + g / l := by linarith
    have h3 : 0 < 100 / (1 + g / l) := by positivity
    linarith

/-- Witness for C5 on the strictly decreasing series at position 14:
average gain 0, average loss 1. -/
theorem rsi_bounded_witness :
    (rollingMean (gains (seriesDiff closesDown)) 14)[14]? = some (some 0) ∧
    (rollingMean (losses (seriesDiff closesDown)) 14)[14]? = some (some 1) ∧
    (0 : ℚ) ≤ 0 ∧ (0 : ℚ) < 1 ∧
    ∃ r, (calculate_rsi closesDown 14)[14]? = some (some r) ∧
      0 ≤ r ∧ r ≤ 100 := by
  have hg : (rollingMean (gains (seriesDiff closesDown)) 14)[14]?
      = some (some 0) := by
    norm_num [rollingMean, gains, seriesDiff, closesDown, windowAt,
      List.range_succ]
  have hl : (rollingMean (losses (seriesDiff closesDown)) 14)[14]?
      = some (some 1) := by
    norm_num [rollingMean, losses, seriesDiff, closesDown, windowAt,
      List.range_succ]
  exact ⟨hg, hl, le_refl 0, by norm_num,
    rsi_bounded closesDown 14 0 1 hg hl (le_refl 0) (by norm_num)⟩

/-- Claim C4: for every non-empty well-formed input series, each of the four
indicator arrays has length equal to the input length, and the last element
of each array is the entry at the index of the most recent bar. -/
theorem indicator_alignment (f : Frame) (hwf : f.WF) (hne : f.closes ≠ []) :
    ((calculate_indicators f).fifty_MA.length = f.length ∧
      (calculate_indicators f).twohundred_MA.length = f.length ∧
      (calculate_indicators f).RSI.length = f.length ∧
      (calculate_indicators f).VWAP.length = f.length) ∧
    ((calculate_indicators f).fifty_MA.getLast? =
        (calculate_indicators f).fifty_MA[f.length - 1]? ∧
      (calculate_indicators f).twohundred_MA.getLast? =
        (calculate_indicators f).twohundred_MA[f.length - 1]? ∧
      (calculate_indicators f).RSI.getLast? =
        (calculate_indicators f).RSI[f.length - 1]? ∧
      (calculate_indicators f).VWAP.getLast? =
        (calculate_indicators f).VWAP[f.length - 1]?) := by
  have h50 : (calculate_indicators f).fifty_MA.length = f.length := by
    simp [calculate_indicators, Frame.length]
  have h200 : (calculate_indicators f).twohundred_MA.length = f.length := by
    simp [calculate_indicators, Frame.length]
  have hrsi : (calculate_indicators f).RSI.length = f.length := by
    simp [calculate_indicators, Frame.length]
  have hvwap : (calculate_indicators f).VWAP.length = f.length :=
    length_calculate_vwap f hwf
  refine ⟨⟨h50, h200, hrsi, hvwap⟩, ?_, ?_, ?_, ?_⟩
  · rw [List.getLast?_eq_getElem?, h50]
  · rw [List.getLast?_eq_getElem?, h200]
  · rw [List.getLast?_eq_getElem?, hrsi]
  · rw [List.getLast?_eq_getElem?, hvwap]

/-- Witness for C4 at the sample frame. -/
theorem indicator_alignment_witness :
    sampleFrame.WF ∧ sampleFrame.closes ≠ [] ∧
    (((calculate_indicators sampleFrame).fifty_MA.length = sampleFrame.length ∧
      (calculate_indicators sampleFrame).twohundred_MA.length
        = sampleFrame.length ∧
      (calculate_indicators sampleFrame).RSI.length = sampleFrame.length ∧
      (calculate_indicators sampleFrame).VWAP.length = sampleFrame.length) ∧
    ((calculate_indicators sampleFrame).fifty_MA.getLast? =
        (calculate_indicators sampleFrame).fifty_MA[sampleFrame.length - 1]? ∧
      (calculate_indicators sampleFrame).twohundred_MA.getLast? =
        (calculate_indicators
          sampleFrame).twohundred_MA[sampleFrame.length - 1]? ∧
      (calculate_indicators sampleFrame).RSI.getLast? =
        (calculate_indicators sampleFrame).RSI[sampleFrame.length - 1]? ∧
      (calculate_indicators sampleFrame).VWAP.getLast? =
        (calculate_indicators sampleFrame).VWAP[sampleFrame.length - 1]?)) :=
  ⟨⟨rfl, rfl, rfl, rfl, rfl⟩, by decide,
   indicator_alignment sampleFrame ⟨rfl, rfl, rfl, rfl, rfl⟩ (by decide)⟩

/-- Claim C6: the `is_golden_cross` flag in the response's analysis block is
true iff the latest 50-period moving-average value is strictly greater than
the latest 200-period value; equal values yield `false`. -/
theorem golden_cross_strict (f : Frame) (info : StockInfo) (r : Response)
    (m50 m200 : ℚ) (hne : f.closes ≠ [])
    (hr : prepare_response (calculate_indicators f) info = some r)
    (h50 : (calculate_indicators f).fifty_MA.getLast? = some m50)
    (h200 : (calculate_indicators f).twohundred_MA.getLast? = some m200) :
    (r.analysis.moving_averages.is_golden_cross = true ↔ m200 < m50) ∧
    (m50 = m200 → r.analysis.moving_averages.is_golden_cross = false) := by
  obtain ⟨lp, l50, l200, lrsi, lvwap, sd, ed, -, h50', h200', -, -, -, -,
    hrEq⟩ := prepare_response_eq_some hr
  rw [h50] at h50'
  rw [h200] at h200'
  obtain rfl : m50 = l50 := Option.some.inj h50'
  obtain rfl : m200 = l200 := Option.some.inj h200'
  subst hrEq
  constructor
  · simp [mkResponse]
  · intro he
    simp [mkResponse, he]

/-- Witness for C6 at the sample frame, where the two latest moving averages
are equal (both 11) and the flag is `false`. -/
theorem golden_cross_strict_witness :
    sampleFrame.closes ≠ [] ∧
    (calculate_indicators sampleFrame).fifty_MA.getLast? = some 11 ∧
    (calculate_indicators sampleFrame).twohundred_MA.getLast? = some 11 ∧
    (prepare_response (calculate_indicators sampleFrame) sampleInfo).map
      (fun r => r.analysis.moving_averages.is_golden_cross) = some false := by
  have h50 : (calculate_indicators sampleFrame).fifty_MA.getLast?
      = some 11 := by
    norm_num [calculate_indicators, rollingMeanMin1, windowAt, sampleFrame,
      List.range_succ]
  have h200 : (calculate_indicators sampleFrame).twohundred_MA.getLast?
      = some 11 := by
    norm_num [calculate_indicators, rollingMeanMin1, windowAt, sampleFrame,
      List.range_succ]
  obtain ⟨r, hr⟩ := prepare_response_isSome sampleFrame sampleInfo
    ⟨rfl, rfl, rfl, rfl, rfl⟩ (by decide)
  have h := golden_cross_strict sampleFrame sampleInfo r 11 11 (by decide)
    hr h50 h200
  rw [hr, Option.map_some']
  rw [h.2 rfl]
  exact ⟨by decide, h50, h200, rfl⟩

/-- Claim C7: when the fetch returns an empty series, the endpoint returns a
404 NotFound error (in the embedding the 404 branch returns before any
indicator computation or response assembly is reached). -/
theorem empty_series_not_found (f : Frame) (info : Option StockInfo)
    (ticker : String) (h : f.closes = []) :
    get_stock_data f info ticker =
      .error ⟨404, "No data found for ticker " ++ ticker⟩ := by
  simp [get_stock_data, Frame.isEmpty, h]

/-- Witness for C7 at the empty frame. -/
theorem empty_series_not_found_witness :
    emptyFrame.closes = [] ∧
    get_stock_data emptyFrame none "TEST" =
      .error ⟨404, "No data found for ticker " ++ "TEST"⟩ :=
  ⟨rfl, empty_series_not_found emptyFrame none "TEST" rfl⟩

/-- Claim C8: for a well-formed non-empty price series whose metadata fetch
fails (the handler falls back to `{"symbol": ticker}`), a full response is
still produced, with `sector = "N/A"`, `industry = "N/A"`,
`company_name = ""`, and the ticker taken from the request. -/
theorem metadata_fallback (f : Frame) (ticker : String) (hwf : f.WF)
    (hne : f.closes ≠ []) :
    ∃ r, get_stock_data f none ticker = .ok r ∧
      r.metadata.sector = "N/A" ∧ r.metadata.industry = "N/A" ∧
      r.metadata.company_name = "" ∧ r.metadata.ticker = ticker := by
  obtain ⟨r, hr⟩ := prepare_response_isSome f { symbol := some ticker }
    hwf hne
  have hempty : f.isEmpty = false := by
    simp [Frame.isEmpty, hne]
  refine ⟨r, ?_, ?_⟩
  · simp only [get_stock_data, hempty, Bool.false_eq_true, if_false,
      Option.getD_none, hr]
  · obtain ⟨lp, l50, l200, lrsi, lvwap, sd, ed, -, -, -, -, -, -, -, hrEq⟩ :=
      prepare_response_eq_some hr
    subst hrEq
    exact ⟨rfl, rfl, rfl, rfl⟩

/-- Witness for C8 at the sample frame. -/
theorem metadata_fallback_witness :
    sampleFrame.WF ∧ sampleFrame.closes ≠ [] ∧
    ∃ r, get_stock_data sampleFrame none "TEST" = .ok r ∧
      r.metadata.sector = "N/A" ∧ r.metadata.industry = "N/A" ∧
      r.metadata.company_name = "" ∧ r.metadata.ticker = "TEST" :=
  ⟨⟨rfl, rfl, rfl, rfl, rfl⟩, by decide,
   metadata_fallback sampleFrame "TEST" ⟨rfl, rfl, rfl, rfl, rfl⟩ (by decide)⟩

/-- Claim C9: the indicator engine leaves the original per-bar columns
unchanged (it only appends the four indicator columns), so the price, volume
and dates arrays of the response equal those of the fetched series. -/
theorem indicators_preserve_base (f : Frame) (info : StockInfo) (r : Response)
    (hr : prepare_response (calculate_indicators f) info = some r) :
    (calculate_indicators f).toFrame = f ∧
    r.timeseries.price = f.closes ∧ r.timeseries.volume = f.volumes ∧
    r.timeseries.dates = f.dates := by
  obtain ⟨lp, l50, l200, lrsi, lvwap, sd, ed, -, -, -, -, -, -, -, hrEq⟩ :=
    prepare_response_eq_some hr
  subst hrEq
  exact ⟨rfl, rfl, rfl, rfl⟩

/-- Witness for C9 at the sample frame. -/
theorem indicators_preserve_base_witness :
    (prepare_response (calculate_indicators sampleFrame) sampleInfo).map
        (fun r => (r.timeseries.price, r.timeseries.volume,
          r.timeseries.dates))
      = some (sampleFrame.closes, sampleFrame.volumes, sampleFrame.dates) ∧
    (calculate_indicators sampleFrame).toFrame = sampleFrame := by
  obtain ⟨r, hr⟩ := prepare_response_isSome sampleFrame sampleInfo
    ⟨rfl, rfl, rfl, rfl, rfl⟩ (by decide)
  have h := indicators_preserve_base sampleFrame sampleInfo r hr
  rw [hr, Option.map_some']
  exact ⟨by rw [h.2.1, h.2.2.1, h.2.2.2], h.1⟩

/-- Claim C10: when the latest RSI value is undefined (`NaN`, e.g. fewer than
14 bars), the response is still produced and its analysis block reports both
`is_overbought` and `is_oversold` as `false`, because a `NaN` satisfies
neither comparison. -/
theorem undefined_rsi_signals_false (f : Frame) (info : StockInfo)
    (hwf : f.WF) (hne : f.closes ≠ [])
    (hrsi : (calculate_indicators f).RSI.getLast? = some none) :
    ∃ r, prepare_response (calculate_indicators f) info = some r ∧
      r.analysis.rsi.is_overbought = false ∧
      r.analysis.rsi.is_oversold = false := by
  obtain ⟨r, hr⟩ := prepare_response_isSome f info hwf hne
  obtain ⟨lp, l50, l200, lrsi, lvwap, sd, ed, -, -, -, hrsi', -, -, -,
    hrEq⟩ := prepare_response_eq_some hr
  rw [hrsi] at hrsi'
  obtain rfl : (none : Option ℚ) = lrsi := Option.some.inj hrsi'
  subst hrEq
  exact ⟨_, hr, rfl, rfl⟩

/-- Witness for C10 at the three-bar sample frame, whose RSI column is all
`NaN`. -/
theorem undefined_rsi_signals_false_witness :
    sampleFrame.WF ∧ sampleFrame.closes ≠ [] ∧
    (calculate_indicators sampleFrame).RSI.getLast? = some none ∧
    ∃ r, prepare_response (calculate_indicators sampleFrame) sampleInfo
        = some r ∧
      r.analysis.rsi.is_overbought = false ∧
      r.analysis.rsi.is_oversold = false :=
  ⟨⟨rfl, rfl, rfl, rfl, rfl⟩, by decide, by decide,
   undefined_rsi_signals_false sampleFrame sampleInfo
     ⟨rfl, rfl, rfl, rfl, rfl⟩ (by decide) (by decide)⟩

end StockAnalyzer
